import Mathlib
set_option linter.unusedVariables false

/-!
Shallow embedding of `src/files/plugins/check_resources.py` (nagios checks for
OpenStack resources).  Pure data and control flow are translated directly; the
cloud API enumeration (`openstack.connect` / `RESOURCES[resource_type](conn)`)
is an external collaborator, so the enumerated resource sequence is passed as
an explicit argument.  Logging calls have no observable effect and are dropped.
-/

namespace CheckResources

/-- Nagios exit code OK (line 25 of the source). -/
def NAGIOS_STATUS_OK : Nat := 0

/-- Nagios exit code WARNING (line 26). -/
def NAGIOS_STATUS_WARNING : Nat := 1

/-- Nagios exit code CRITICAL (line 27). -/
def NAGIOS_STATUS_CRITICAL : Nat := 2

/-- Nagios exit code UNKNOWN (line 28). -/
def NAGIOS_STATUS_UNKNOWN : Nat := 3

/-- The keys of the `RESOURCES` dispatch table (lines 37-44); the values are
cloud-API enumeration closures, external to this embedding. -/
def RESOURCES : List String :=
  ["network", "floating-ip", "server", "port", "security-group", "subnet"]

/-- `RESOURCES_BY_EXISTENCE` (line 45): resource types whose health is
presence, not status. -/
def RESOURCES_BY_EXISTENCE : List String := ["security-group", "subnet", "network"]

/-- A record returned by the cloud enumeration: an `id`, an optional `status`
attribute (`none` models the attribute being absent) and arbitrary further
attributes reachable through `getattr`. -/
structure Resource where
  id : String
  status : Option String
  attrs : List (String × String)
deriving DecidableEq

/-- `getattr(resource, key, None)`: dynamic attribute access with default. -/
def Resource.getAttr (r : Resource) (key : String) : Option String :=
  if key = "id" then some r.id
  else if key = "status" then r.status
  else (r.attrs.find? (fun p => p.fst = key)).map Prod.snd

/-- The `Results` object (lines 48-92).  `msgs` is the `_messages` list of
`(exit_code, message)` pairs. -/
structure Results where
  exit_code : Nat
  ok : List String
  warning : List String
  critical : List String
  not_found : List String
  msgs : List (Nat × String)
deriving DecidableEq

/-- `Results.__init__` (lines 51-58). -/
def Results.init : Results :=
  { exit_code := 0, ok := [], warning := [], critical := [], not_found := [], msgs := [] }

/-- Rendering of an optional status inside `"... is in {} status".format`:
Python renders `None` as the string `"None"`. -/
def statusStr : Option String → String
  | none => "None"
  | some s => s

/-- Python truthiness test `not status` for an `Optional[str]`: true exactly
for `None` and for the empty string. -/
def statusFalsy (s : Option String) : Bool := s.getD "" == ""

/-- `Results.add_result` (lines 68-92): the if/elif classification chain, the
bucket append, `exit_code = max(...)` and the `_messages` append. -/
def Results.add_result (r : Results) (type_ id_ : String) (status : Option String)
    (exists_ : Bool) : Results :=
  if status == some "ACTIVE" then
    { r with ok := r.ok ++ [id_],
             exit_code := max NAGIOS_STATUS_OK r.exit_code,
             msgs := r.msgs ++
               [(NAGIOS_STATUS_OK,
                 type_ ++ " '" ++ id_ ++ "' is in " ++ statusStr status ++ " status")] }
  else if status == some "DOWN" then
    { r with critical := r.critical ++ [id_],
             exit_code := max NAGIOS_STATUS_CRITICAL r.exit_code,
             msgs := r.msgs ++
               [(NAGIOS_STATUS_CRITICAL,
                 type_ ++ " '" ++ id_ ++ "' is in " ++ statusStr status ++ " status")] }
  else if statusFalsy status && exists_ && RESOURCES_BY_EXISTENCE.contains type_ then
    { r with ok := r.ok ++ [id_],
             exit_code := max NAGIOS_STATUS_OK r.exit_code,
             msgs := r.msgs ++
               [(NAGIOS_STATUS_OK, type_ ++ " '" ++ id_ ++ "' exists")] }
  else if !exists_ then
    { r with not_found := r.not_found ++ [id_],
             exit_code := max NAGIOS_STATUS_CRITICAL r.exit_code,
             msgs := r.msgs ++
               [(NAGIOS_STATUS_CRITICAL, type_ ++ " '" ++ id_ ++ "' was not found")] }
  else
    { r with warning := r.warning ++ [id_],
             exit_code := max NAGIOS_STATUS_WARNING r.exit_code,
             msgs := r.msgs ++
               [(NAGIOS_STATUS_WARNING,
                 type_ ++ " '" ++ id_ ++ "' is in " ++ statusStr status ++ " status")] }

/-- `len(self._messages)` (lines 64-66). -/
def Results.count (r : Results) : Nat := r.msgs.length

/-- Python string comparison `<` on code-point sequences: strict
lexicographic order, comparing the scalar values of the characters. -/
def strLtB : List Char → List Char → Bool
  | _, [] => false
  | [], _ :: _ => true
  | c :: cs, d :: ds =>
    if c.toNat < d.toNat then true
    else if d.toNat < c.toNat then false
    else strLtB cs ds

/-- Python string comparison `a < b` (code-point lexicographic). -/
def pyStrLt (a b : String) : Bool := strLtB a.data b.data

/-- Python tuple comparison `(int, str)` less-or-equal: lexicographic, with
`s <= t` on strings meaning `not (t < s)`. -/
def tupleLE (x y : Nat × String) : Bool :=
  decide (x.1 < y.1) || (decide (x.1 = y.1) && !(pyStrLt y.2 x.2))

/-- The reversed comparison used by `sorted(self._messages, reverse=True)`. -/
def tupleGE (x y : Nat × String) : Bool := tupleLE y x

/-- `tupleGE` as a binary relation, for use with the sorting library. -/
def pairGE : Nat × String → Nat × String → Prop := fun x y => tupleGE x y = true

instance : DecidableRel pairGE := fun x y => inferInstanceAs (Decidable (tupleGE x y = true))

/-- `Results.messages` (lines 60-62): `sorted(self._messages, reverse=True)`
projected to the message components.  Python's sort is stable, but elements
comparing equal under the full `(exit_code, message)` key are identical
pairs, so any sort that is ordered under `pairGE` — here an insertion
sort — produces the same list. -/
def Results.messages (r : Results) : List String :=
  (List.insertionSort pairGE r.msgs).map Prod.snd

/-- `_resource_filter` (lines 95-128).  The first two `continue`s drop the
resource; in the `elif check_all` branch (lines 121-126) the loop
`for key, value in (select or {}).items(): if getattr(resource, key, None) != value: continue`
runs, but its `continue` only advances that inner loop, so control always
falls through to the `yield` — the `select` argument never affects the
output. -/
def resource_filter (resources : List Resource) (ids : List String) (skip : List String)
    (check_all : Bool) (select : List (String × String)) : List Resource :=
  resources.filter fun resource =>
    if !check_all && !(ids.contains resource.id) then false
    else if check_all && skip.contains resource.id then false
    else true

/-- `os.linesep` on the target (Linux) platform. -/
def os_linesep : String := "\n"

/-- `_create_title` (lines 190-206): category summaries for the non-empty
buckets, in the fixed order not-found, critical, warning, ok. -/
def create_title (resource : String) (results : Results) : String :=
  let titles :=
    (if results.not_found ≠ [] then
      [toString results.not_found.length ++ "/" ++ toString results.count ++ " were not found"]
     else []) ++
    (if results.critical ≠ [] then
      [toString results.critical.length ++ "/" ++ toString results.count ++ " are DOWN"]
     else []) ++
    (if results.warning ≠ [] then
      [toString results.warning.length ++ "/" ++ toString results.count ++ " in UNKNOWN"]
     else []) ++
    (if results.ok ≠ [] then
      [toString results.ok.length ++ "/" ++ toString results.count ++ " passed"]
     else [])
  resource ++ "s " ++ String.intercalate ", " titles

/-- `nagios_output` (lines 209-231) as a pure `(exit code, rendered text)`
pair.  `print("OK: ", output)` renders with the default separator, i.e.
`"OK: " ++ " " ++ output`, and the process later exits 0; the raised
`WarnError`/`CriticalError`/`UnknownError` are converted by the external
`nagios_plugin3.try_check` into exits 1, 2 and 3 respectively, carrying the
formatted text. -/
def nagios_output (resource : String) (results : Results) : Nat × String :=
  let messages := String.intercalate os_linesep results.messages
  let title := create_title resource results
  let output := title ++ os_linesep ++ messages
  if results.exit_code == NAGIOS_STATUS_OK then
    (0, "OK: " ++ " " ++ output)
  else if results.exit_code == NAGIOS_STATUS_WARNING then
    (1, "WARNING: " ++ output)
  else if results.exit_code == NAGIOS_STATUS_CRITICAL then
    (2, "CRITICAL: " ++ output)
  else if results.exit_code == NAGIOS_STATUS_UNKNOWN then
    (3, "UNKNOWN: " ++ output)
  else
    (3, "UNKNOWN: not valid exit_code " ++ toString results.exit_code ++ " " ++ output)

/-- Which branch of `nagios_output`'s if/elif chain fires: `0`-`3` for the
four recognized severities, `4` for the final `else` (lines 228-231). -/
def nagios_branch (results : Results) : Nat :=
  if results.exit_code == NAGIOS_STATUS_OK then 0
  else if results.exit_code == NAGIOS_STATUS_WARNING then 1
  else if results.exit_code == NAGIOS_STATUS_CRITICAL then 2
  else if results.exit_code == NAGIOS_STATUS_UNKNOWN then 3
  else 4

/-- The body of `check`'s classification loop (lines 256-262): for a
status-based type the status is read with `getattr(resource, "status",
"UNKNOWN")`; for an existence-only type `add_result` is called without a
status. -/
def check_step (resource_type : String) (results : Results) (resource : Resource) : Results :=
  if !(RESOURCES_BY_EXISTENCE.contains resource_type) then
    results.add_result resource_type resource.id
      (some (resource.status.getD "UNKNOWN")) true
  else
    results.add_result resource_type resource.id none true

/-- The body of `check`'s not-found loop (lines 264-266). -/
def check_notfound_step (resource_type : String) (checked_ids : List String)
    (results : Results) (id_ : String) : Results :=
  if checked_ids.contains id_ then results
  else results.add_result resource_type id_ none false

/-- `check` (lines 234-268) up to the final `nagios_output` call: the filter
pass, the per-resource classification loop, and the not-found pass over the
requested ids.  `resources` stands for `RESOURCES[resource_type](connection)`.
The Python loop fills `checked_ids` while classifying; the not-found loop
runs only afterwards, so computing `checked_ids` up front is equivalent. -/
def check (resource_type : String) (resources : List Resource) (ids : List String)
    (skip : List String) (select : List (String × String)) (check_all : Bool) : Results :=
  let filtered := resource_filter resources ids skip check_all select
  ids.foldl (check_notfound_step resource_type (filtered.map Resource.id))
    (filtered.foldl (check_step resource_type) Results.init)

/-- One recorded call to `Results.add_result`, for reasoning about arbitrary
call sequences. -/
structure AddCall where
  type_ : String
  id_ : String
  status : Option String
  exists_ : Bool

/-- The `Results` object obtained from a fresh `Results()` by a sequence of
`add_result` calls. -/
def buildResults (calls : List AddCall) : Results :=
  calls.foldl (fun r c => r.add_result c.type_ c.id_ c.status c.exists_) Results.init

/-! ### Order facts for the message sort -/

theorem strLtB_cons_iff (c d : Char) (cs ds : List Char) :
    strLtB (c :: cs) (d :: ds) = true ↔
      (c.toNat < d.toNat ∨ (c.toNat = d.toNat ∧ strLtB cs ds = true)) := by
  simp only [strLtB]
  split_ifs with h1 h2
  · simp [h1]
  · simp; omega
  · have he : c.toNat = d.toNat := by omega
    simp [he, h1]

theorem strLtB_trans : ∀ (a b c : List Char),
    strLtB a b = true → strLtB b c = true → strLtB a c = true
  | _, [], _ => by intro h _; simp [strLtB] at h
  | _, _ :: _, [] => by intro _ h; simp [strLtB] at h
  | [], _ :: _, _ :: _ => by intro _ _; simp [strLtB]
  | x :: xs, y :: ys, z :: zs => by
    intro hab hbc
    rw [strLtB_cons_iff] at hab hbc ⊢
    rcases hab with h | ⟨he, hr⟩ <;> rcases hbc with h' | ⟨he', hr'⟩
    · exact Or.inl (by omega)
    · exact Or.inl (by omega)
    · exact Or.inl (by omega)
    · exact Or.inr ⟨by omega, strLtB_trans xs ys zs hr hr'⟩

theorem strLtB_asymm : ∀ (a b : List Char), strLtB a b = true → strLtB b a = false
  | _, [] => by intro h; simp [strLtB] at h
  | [], _ :: _ => by intro _; simp [strLtB]
  | a :: as, b :: bs => by
    intro hab
    rw [← Bool.not_eq_true]
    intro hba
    rw [strLtB_cons_iff] at hab hba
    rcases hab with h | ⟨he, hr⟩ <;> rcases hba with h' | ⟨he', hr'⟩
    · omega
    · omega
    · omega
    · have := strLtB_asymm as bs hr
      rw [hr'] at this
      simp at this

theorem strLtB_connex : ∀ (a b : List Char),
    strLtB a b = false → strLtB b a = false → a = b
  | [], [] => by intro _ _; rfl
  | [], _ :: _ => by intro h _; simp [strLtB] at h
  | _ :: _, [] => by intro _ h; simp [strLtB] at h
  | a :: as, b :: bs => by
    intro h1 h2
    have h1' : ¬(strLtB (a :: as) (b :: bs) = true) := by simp [h1]
    have h2' : ¬(strLtB (b :: bs) (a :: as) = true) := by simp [h2]
    rw [strLtB_cons_iff] at h1' h2'
    push_neg at h1' h2'
    have he : a.toNat = b.toNat := by omega
    have hr1 : strLtB as bs = false := by simpa using h1'.2 he
    have hr2 : strLtB bs as = false := by simpa using h2'.2 he.symm
    have hs := strLtB_connex as bs hr1 hr2
    have hc : a = b := Char.ext (UInt32.ext he)
    rw [hc, hs]

theorem pyStrLt_trans {a b c : String} :
    pyStrLt a b = true → pyStrLt b c = true → pyStrLt a c = true :=
  strLtB_trans a.data b.data c.data

theorem pyStrLt_asymm {a b : String} : pyStrLt a b = true → pyStrLt b a = false :=
  strLtB_asymm a.data b.data

theorem pyStrLt_connex {a b : String} :
    pyStrLt a b = false → pyStrLt b a = false → a = b := by
  intro h1 h2
  have hd := strLtB_connex a.data b.data h1 h2
  cases a with
  | mk la =>
    cases b with
    | mk lb => exact congrArg String.mk hd

theorem pairGE_iff (x y : Nat × String) :
    pairGE x y ↔ (y.1 < x.1 ∨ (y.1 = x.1 ∧ pyStrLt x.2 y.2 = false)) := by
  simp [pairGE, tupleGE, tupleLE, Bool.and_eq_true]

theorem pairGE_total (a b : Nat × String) : pairGE a b ∨ pairGE b a := by
  rcases Nat.lt_trichotomy a.1 b.1 with h | h | h
  · exact Or.inr ((pairGE_iff b a).mpr (Or.inl h))
  · cases hs : pyStrLt a.2 b.2 with
    | true => exact Or.inr ((pairGE_iff b a).mpr (Or.inr ⟨h, pyStrLt_asymm hs⟩))
    | false => exact Or.inl ((pairGE_iff a b).mpr (Or.inr ⟨h.symm, hs⟩))
  · exact Or.inl ((pairGE_iff a b).mpr (Or.inl h))

theorem pairGE_trans (a b c : Nat × String) :
    pairGE a b → pairGE b c → pairGE a c := by
  intro hab hbc
  rw [pairGE_iff] at hab hbc ⊢
  rcases hab with h | ⟨he, hs⟩ <;> rcases hbc with h' | ⟨he', hs'⟩
  · exact Or.inl (by omega)
  · exact Or.inl (by omega)
  · exact Or.inl (by omega)
  · refine Or.inr ⟨by omega, ?_⟩
    cases hac : pyStrLt a.2 c.2 with
    | true =>
      cases hcb : pyStrLt c.2 b.2 with
      | true =>
        have := pyStrLt_trans hac hcb
        rw [hs] at this
        simp at this
      | false =>
        have hbc2 := pyStrLt_connex hs' hcb
        rw [hbc2] at hs
        rw [hac] at hs
        simp at hs
    | false => rfl

theorem pairGE_sev {x y : Nat × String} (h : pairGE x y) : y.1 ≤ x.1 := by
  rcases (pairGE_iff x y).mp h with h' | ⟨h', _⟩ <;> omega

/-! ### Claims -/

/-- C1: evaluation at the failing input.  In ALL mode, a resource whose
`subnet` attribute is `"y"` is still yielded although the select mapping
demands `subnet = "x"`: the inner loop's `continue` (line 126) never skips
the `yield`, so the select filter has no effect, contradicting the claim
that a mismatching resource is excluded. -/
theorem claim_C1 :
    Resource.getAttr ⟨"r1", none, [("subnet", "y")]⟩ "subnet" = some "y" ∧
    resource_filter [⟨"r1", none, [("subnet", "y")]⟩] [] [] true [("subnet", "x")] =
      [⟨"r1", none, [("subnet", "y")]⟩] := by
  constructor
  · decide
  · decide

/-- C6: the rendered message body lists all accumulated entries sorted by the
reverse of the Python `(severity, message)` tuple order: the sorted list is a
permutation of `_messages`, pairwise non-increasing under `pairGE` (so
severities are non-increasing, CRITICAL before WARNING before OK, and equal
severities are ordered by message content descending), and `messages` is its
projection to message texts. -/
theorem claim_C6 (r : Results) :
    (List.insertionSort pairGE r.msgs).Perm r.msgs ∧
    (List.insertionSort pairGE r.msgs).Pairwise pairGE ∧
    (List.insertionSort pairGE r.msgs).Pairwise (fun x y => y.1 ≤ x.1) ∧
    r.messages = (List.insertionSort pairGE r.msgs).map Prod.snd := by
  haveI : IsTotal (Nat × String) pairGE := ⟨pairGE_total⟩
  haveI : IsTrans (Nat × String) pairGE := ⟨fun a b c => pairGE_trans a b c⟩
  refine ⟨List.perm_insertionSort pairGE r.msgs, List.sorted_insertionSort pairGE r.msgs,
    ?_, rfl⟩
  exact (List.sorted_insertionSort pairGE r.msgs).imp (fun h => pairGE_sev h)

/-- C10: with `check_all` false (EXPLICIT_IDS mode), the output of
`_resource_filter` does not depend on the `skip` and `select` parameters at
all: any two runs differing only in those arguments produce the same
filtered sequence. -/
theorem claim_C10 (resources : List Resource) (ids skip skip' : List String)
    (select select' : List (String × String)) :
    resource_filter resources ids skip false select =
      resource_filter resources ids skip' false select' := rfl

theorem add_result_msgs (r : Results) (t i : String) (s : Option String) (e : Bool) :
    ∃ p : Nat × String, p.1 ≤ 2 ∧
      (r.add_result t i s e).msgs = r.msgs ++ [p] ∧
      (r.add_result t i s e).exit_code = max p.1 r.exit_code := by
  unfold Results.add_result
  repeat' split
  all_goals refine ⟨_, ?_, rfl, rfl⟩
  all_goals norm_num [NAGIOS_STATUS_OK, NAGIOS_STATUS_WARNING, NAGIOS_STATUS_CRITICAL]

theorem add_result_active_eq (r : Results) (t i : String) (e : Bool) :
    r.add_result t i (some "ACTIVE") e = { r with
      ok := r.ok ++ [i],
      exit_code := max NAGIOS_STATUS_OK r.exit_code,
      msgs := r.msgs ++
        [(NAGIOS_STATUS_OK, t ++ " '" ++ i ++ "' is in " ++ "ACTIVE" ++ " status")] } := rfl

theorem add_result_down_eq (r : Results) (t i : String) (e : Bool) :
    r.add_result t i (some "DOWN") e = { r with
      critical := r.critical ++ [i],
      exit_code := max NAGIOS_STATUS_CRITICAL r.exit_code,
      msgs := r.msgs ++
        [(NAGIOS_STATUS_CRITICAL, t ++ " '" ++ i ++ "' is in " ++ "DOWN" ++ " status")] } := rfl

theorem statusFalsy_cases {s : Option String} (hf : statusFalsy s = true) :
    s = none ∨ s = some "" := by
  cases s with
  | none => exact Or.inl rfl
  | some v =>
    simp [statusFalsy] at hf
    exact Or.inr (by rw [hf])

theorem add_result_exists_eq (r : Results) (t i : String) (s : Option String)
    (hf : statusFalsy s = true) (ht : RESOURCES_BY_EXISTENCE.contains t = true) :
    r.add_result t i s true = { r with
      ok := r.ok ++ [i],
      exit_code := max NAGIOS_STATUS_OK r.exit_code,
      msgs := r.msgs ++ [(NAGIOS_STATUS_OK, t ++ " '" ++ i ++ "' exists")] } := by
  have ht' : t ∈ RESOURCES_BY_EXISTENCE := by simpa using ht
  rcases statusFalsy_cases hf with h | h <;> subst h <;>
    simp [Results.add_result, statusFalsy, ht']

theorem add_result_notfound_eq (r : Results) (t i : String) (s : Option String)
    (h1 : s ≠ some "ACTIVE") (h2 : s ≠ some "DOWN") :
    r.add_result t i s false = { r with
      not_found := r.not_found ++ [i],
      exit_code := max NAGIOS_STATUS_CRITICAL r.exit_code,
      msgs := r.msgs ++
        [(NAGIOS_STATUS_CRITICAL, t ++ " '" ++ i ++ "' was not found")] } := by
  simp [Results.add_result, h1, h2]

theorem add_result_warning_eq (r : Results) (t i : String) (s : Option String)
    (h1 : s ≠ some "ACTIVE") (h2 : s ≠ some "DOWN")
    (h3 : statusFalsy s = false ∨ RESOURCES_BY_EXISTENCE.contains t = false) :
    r.add_result t i s true = { r with
      warning := r.warning ++ [i],
      exit_code := max NAGIOS_STATUS_WARNING r.exit_code,
      msgs := r.msgs ++
        [(NAGIOS_STATUS_WARNING,
          t ++ " '" ++ i ++ "' is in " ++ statusStr s ++ " status")] } := by
  rcases h3 with h3 | h3
  · simp [Results.add_result, h1, h2, h3]
  · have ht' : t ∉ RESOURCES_BY_EXISTENCE := by simpa using h3
    simp [Results.add_result, h1, h2]
    intro hf
    exact ht'
/-- C2 (counterexample to the claim as stated): `add_result` called with the
present (but empty) status string `""`, an existing resource and the
existence-only type `"subnet"` produces severity OK with an "exists" message,
whereas the claim's priority order — whose third rule requires the status to
be absent — would classify this combination under the final WARNING rule.
Python's `not status` is a truthiness test, true also for the empty string. -/
theorem claim_C2_counterexample :
    (Results.init.add_result "subnet" "s1" (some "") true).exit_code = 0 ∧
    (Results.init.add_result "subnet" "s1" (some "") true).msgs =
      [(0, "subnet 's1' exists")] ∧
    ¬((Results.init.add_result "subnet" "s1" (some "") true).exit_code = 1) := by
  refine ⟨rfl, rfl, ?_⟩
  decide

/-- C2 (amended): `add_result` is total — every combination of optional
status, exists flag and resource type yields exactly one severity among
OK (0), WARNING (1), CRITICAL (2) — following the priority order
`ACTIVE` → OK, `DOWN` → CRITICAL, falsy status (absent or empty) and exists
and existence-only type → OK "exists", not exists → CRITICAL "was not
found", otherwise → WARNING; and a non-existence-only resource lacking a
status attribute is classified through `check`'s `getattr` default as
WARNING with the status rendered as `UNKNOWN`. -/
theorem claim_C2 (type_ id_ : String) (status : Option String) (exists_ : Bool) :
    ((Results.init.add_result type_ id_ status exists_).exit_code = 0 ∨
     (Results.init.add_result type_ id_ status exists_).exit_code = 1 ∨
     (Results.init.add_result type_ id_ status exists_).exit_code = 2) ∧
    (status = some "ACTIVE" →
      (Results.init.add_result type_ id_ status exists_).exit_code = 0 ∧
      (Results.init.add_result type_ id_ status exists_).msgs =
        [(0, type_ ++ " '" ++ id_ ++ "' is in " ++ "ACTIVE" ++ " status")]) ∧
    (status = some "DOWN" →
      (Results.init.add_result type_ id_ status exists_).exit_code = 2 ∧
      (Results.init.add_result type_ id_ status exists_).msgs =
        [(2, type_ ++ " '" ++ id_ ++ "' is in " ++ "DOWN" ++ " status")]) ∧
    (statusFalsy status = true → exists_ = true →
     RESOURCES_BY_EXISTENCE.contains type_ = true →
      (Results.init.add_result type_ id_ status exists_).exit_code = 0 ∧
      (Results.init.add_result type_ id_ status exists_).msgs =
        [(0, type_ ++ " '" ++ id_ ++ "' exists")]) ∧
    (exists_ = false → status ≠ some "ACTIVE" → status ≠ some "DOWN" →
      (Results.init.add_result type_ id_ status exists_).exit_code = 2 ∧
      (Results.init.add_result type_ id_ status exists_).msgs =
        [(2, type_ ++ " '" ++ id_ ++ "' was not found")]) ∧
    (exists_ = true → status ≠ some "ACTIVE" → status ≠ some "DOWN" →
     (statusFalsy status = false ∨ RESOURCES_BY_EXISTENCE.contains type_ = false) →
      (Results.init.add_result type_ id_ status exists_).exit_code = 1 ∧
      (Results.init.add_result type_ id_ status exists_).msgs =
        [(1, type_ ++ " '" ++ id_ ++ "' is in " ++ statusStr status ++ " status")]) ∧
    (RESOURCES_BY_EXISTENCE.contains type_ = false →
      (check type_ [⟨id_, none, []⟩] [id_] [] [] false).msgs =
        [(1, type_ ++ " '" ++ id_ ++ "' is in " ++ "UNKNOWN" ++ " status")]) := by
  refine ⟨?_, ?_, ?_, ?_, ?_, ?_, ?_⟩
  · obtain ⟨p, hp, hm, he⟩ := add_result_msgs Results.init type_ id_ status exists_
    rw [he]
    have h0 : Results.init.exit_code = 0 := rfl
    rw [h0]
    omega
  · intro h
    subst h
    rw [add_result_active_eq]
    exact ⟨rfl, rfl⟩
  · intro h
    subst h
    rw [add_result_down_eq]
    exact ⟨rfl, rfl⟩
  · intro hf he ht
    subst he
    rw [add_result_exists_eq Results.init type_ id_ status hf ht]
    exact ⟨rfl, rfl⟩
  · intro he h1 h2
    subst he
    rw [add_result_notfound_eq Results.init type_ id_ status h1 h2]
    exact ⟨rfl, rfl⟩
  · intro he h1 h2 h3
    subst he
    rw [add_result_warning_eq Results.init type_ id_ status h1 h2 h3]
    exact ⟨rfl, rfl⟩
  · intro hrex
    have hfilter : resource_filter [⟨id_, none, []⟩] [id_] [] false [] =
        [⟨id_, none, []⟩] := by
      simp [resource_filter]
    have hstep : Results.init.add_result type_ id_ (some "UNKNOWN") true =
        { Results.init with
          warning := [id_],
          exit_code := 1,
          msgs := [(1, type_ ++ " '" ++ id_ ++ "' is in " ++ "UNKNOWN" ++ " status")] } := by
      rw [add_result_warning_eq Results.init type_ id_ (some "UNKNOWN")
        (by simp) (by simp) (Or.inl rfl)]
      rfl
    have hrex' : type_ ∉ RESOURCES_BY_EXISTENCE := by simpa using hrex
    simp [check, check_step, check_notfound_step, hfilter, hrex', hstep]
/-- Witness for C2: the `ACTIVE` rule evaluated at a concrete call. -/
theorem claim_C2_witness :
    (Results.init.add_result "server" "a" (some "ACTIVE") true).exit_code = 0 ∧
    (Results.init.add_result "server" "a" (some "ACTIVE") true).msgs =
      [(0, "server 'a' is in ACTIVE status")] :=
  (claim_C2 "server" "a" (some "ACTIVE") true).2.1 rfl

/-- The running maximum of entry severities, starting from OK. -/
def sevFold (l : List (Nat × String)) : Nat := l.foldl (fun a p => max a p.1) 0

/-- Invariant tying `exit_code` to the recorded entries: the exit code is
the maximum entry severity and every entry severity is at most CRITICAL. -/
def ResultsInv (r : Results) : Prop :=
  r.exit_code = sevFold r.msgs ∧ ∀ p ∈ r.msgs, p.1 ≤ 2

theorem foldl_max_init_le :
    ∀ (l : List (Nat × String)) (a : Nat), a ≤ l.foldl (fun acc p => max acc p.1) a
  | [], _ => Nat.le_refl _
  | p :: l, a =>
    Nat.le_trans (Nat.le_max_left a p.1) (foldl_max_init_le l (max a p.1))

theorem mem_le_foldl_max :
    ∀ (l : List (Nat × String)) (a : Nat) (p : Nat × String), p ∈ l →
      p.1 ≤ l.foldl (fun acc q => max acc q.1) a := by
  intro l
  induction l with
  | nil => intro a p hp; cases hp
  | cons q l ih =>
    intro a p hp
    rcases List.mem_cons.mp hp with h | h
    · subst h
      exact Nat.le_trans (Nat.le_max_right a p.1) (foldl_max_init_le l (max a p.1))
    · exact ih (max a q.1) p h

theorem foldl_max_le :
    ∀ (l : List (Nat × String)) (a : Nat), (∀ p ∈ l, p.1 ≤ 2) → a ≤ 2 →
      l.foldl (fun acc q => max acc q.1) a ≤ 2 := by
  intro l
  induction l with
  | nil => intro a _ ha; exact ha
  | cons q l ih =>
    intro a h ha
    refine ih (max a q.1) (fun p hp => h p (List.mem_cons_of_mem q hp)) ?_
    have := h q (List.mem_cons_self q l)
    omega

theorem sevFold_append (l : List (Nat × String)) (p : Nat × String) :
    sevFold (l ++ [p]) = max (sevFold l) p.1 := by
  simp [sevFold, List.foldl_append]

theorem init_inv : ResultsInv Results.init := by
  constructor
  · rfl
  · intro p hp
    cases hp

theorem add_result_inv {r : Results} (t i : String) (s : Option String) (e : Bool)
    (h : ResultsInv r) : ResultsInv (r.add_result t i s e) := by
  obtain ⟨p, hp, hm, he⟩ := add_result_msgs r t i s e
  constructor
  · rw [he, hm, sevFold_append, h.1, Nat.max_comm]
  · intro q hq
    rw [hm] at hq
    rcases List.mem_append.mp hq with hq | hq
    · exact h.2 q hq
    · rw [List.mem_singleton.mp hq]
      exact hp

theorem buildResults_inv (calls : List AddCall) : ResultsInv (buildResults calls) := by
  have : ∀ (cs : List AddCall) (r : Results), ResultsInv r →
      ResultsInv (cs.foldl (fun r c => r.add_result c.type_ c.id_ c.status c.exists_) r) := by
    intro cs
    induction cs with
    | nil => intro r h; exact h
    | cons c cs ih => intro r h; exact ih _ (add_result_inv _ _ _ _ h)
  exact this calls Results.init init_inv

/-- C3: after any sequence of `add_result` calls the exit code equals the
maximum severity over all recorded entries (starting from OK for the empty
set, with OK < WARNING < CRITICAL), and in particular one CRITICAL entry
forces the aggregate exit code to CRITICAL no matter what else was added. -/
theorem claim_C3 (calls : List AddCall) :
    (buildResults calls).exit_code = sevFold (buildResults calls).msgs ∧
    (∀ m : String, (2, m) ∈ (buildResults calls).msgs →
      (buildResults calls).exit_code = 2) := by
  obtain ⟨h1, h2⟩ := buildResults_inv calls
  refine ⟨h1, fun m hm => ?_⟩
  have hle : sevFold (buildResults calls).msgs ≤ 2 :=
    foldl_max_le _ 0 h2 (by omega)
  have hge : (2 : Nat) ≤ sevFold (buildResults calls).msgs :=
    mem_le_foldl_max _ 0 (2, m) hm
  omega

/-- Witness for C3: a single DOWN entry makes the aggregate CRITICAL. -/
theorem claim_C3_witness :
    (buildResults [⟨"server", "x", some "DOWN", true⟩]).exit_code = 2 :=
  (claim_C3 [⟨"server", "x", some "DOWN", true⟩]).2
    "server 'x' is in DOWN status" (by decide)

/-- C9: a `Results` object built from `add_result` calls alone always has
exit code 0, 1 or 2, so the final `else` branch of `nagios_output` (branch
4, the "not valid exit_code" diagnostic) is unreachable: `nagios_branch`
never selects it. -/
theorem claim_C9 (calls : List AddCall) :
    ((buildResults calls).exit_code = 0 ∨ (buildResults calls).exit_code = 1 ∨
     (buildResults calls).exit_code = 2) ∧
    nagios_branch (buildResults calls) ≠ 4 := by
  obtain ⟨h1, h2⟩ := buildResults_inv calls
  have hle : (buildResults calls).exit_code ≤ 2 := by
    rw [h1]
    exact foldl_max_le _ 0 h2 (by omega)
  constructor
  · omega
  · unfold nagios_branch
    split
    · omega
    · split
      · omega
      · split
        · omega
        · split
          · omega
          · simp_all [NAGIOS_STATUS_OK, NAGIOS_STATUS_WARNING, NAGIOS_STATUS_CRITICAL,
              NAGIOS_STATUS_UNKNOWN]
            omega

/-- Witness for C9: `nagios_branch` at a concretely built result set. -/
theorem claim_C9_witness :
    nagios_branch (buildResults [⟨"server", "x", some "DOWN", true⟩]) ≠ 4 :=
  (claim_C9 [⟨"server", "x", some "DOWN", true⟩]).2
/-- C5 (counterexample to the claim as stated): in the OK case the code runs
`print("OK: ", output)`, whose default separator inserts an extra space, so
the rendered text is `"OK:  <title>\n<body>"` with two spaces — not the
claimed `"OK: <title>\n<body>"`. -/
theorem claim_C5_counterexample :
    (nagios_output "server" (check "server" [⟨"a", some "ACTIVE", []⟩] ["a"] [] [] false)).2 =
      "OK:  servers 1/1 passed\nserver 'a' is in ACTIVE status" ∧
    (nagios_output "server" (check "server" [⟨"a", some "ACTIVE", []⟩] ["a"] [] [] false)).2 ≠
      "OK: servers 1/1 passed\nserver 'a' is in ACTIVE status" := by
  constructor
  · decide
  · decide

/-- C5 (amended): the reporter maps the aggregate severity to exit behaviour
OK → exit 0, WARNING → exit 1, CRITICAL → exit 2, UNKNOWN → exit 3 (any
other value falls to the UNKNOWN diagnostic, exit 3), and the rendered
output always begins with the severity name in capitals followed by title
and body; the OK case prints `"OK: "` plus a separator space and then
`<title>\n<body>`. -/
theorem claim_C5 (resource : String) (results : Results) :
    (results.exit_code = 0 → nagios_output resource results =
      (0, "OK: " ++ " " ++ (create_title resource results ++ os_linesep ++
        String.intercalate os_linesep results.messages))) ∧
    (results.exit_code = 1 → nagios_output resource results =
      (1, "WARNING: " ++ (create_title resource results ++ os_linesep ++
        String.intercalate os_linesep results.messages))) ∧
    (results.exit_code = 2 → nagios_output resource results =
      (2, "CRITICAL: " ++ (create_title resource results ++ os_linesep ++
        String.intercalate os_linesep results.messages))) ∧
    (results.exit_code = 3 → nagios_output resource results =
      (3, "UNKNOWN: " ++ (create_title resource results ++ os_linesep ++
        String.intercalate os_linesep results.messages))) ∧
    (4 ≤ results.exit_code → nagios_output resource results =
      (3, "UNKNOWN: not valid exit_code " ++ toString results.exit_code ++ " " ++
        (create_title resource results ++ os_linesep ++
          String.intercalate os_linesep results.messages))) := by
  refine ⟨?_, ?_, ?_, ?_, ?_⟩
  · intro h
    simp [nagios_output, h, NAGIOS_STATUS_OK]
  · intro h
    simp [nagios_output, h, NAGIOS_STATUS_OK, NAGIOS_STATUS_WARNING]
  · intro h
    simp [nagios_output, h, NAGIOS_STATUS_OK, NAGIOS_STATUS_WARNING, NAGIOS_STATUS_CRITICAL]
  · intro h
    simp [nagios_output, h, NAGIOS_STATUS_OK, NAGIOS_STATUS_WARNING, NAGIOS_STATUS_CRITICAL,
      NAGIOS_STATUS_UNKNOWN]
  · intro h
    have h0 : (results.exit_code == NAGIOS_STATUS_OK) = false := by
      simp [NAGIOS_STATUS_OK]; omega
    have h1 : (results.exit_code == NAGIOS_STATUS_WARNING) = false := by
      simp [NAGIOS_STATUS_WARNING]; omega
    have h2 : (results.exit_code == NAGIOS_STATUS_CRITICAL) = false := by
      simp [NAGIOS_STATUS_CRITICAL]; omega
    have h3 : (results.exit_code == NAGIOS_STATUS_UNKNOWN) = false := by
      simp [NAGIOS_STATUS_UNKNOWN]; omega
    simp [nagios_output, h0, h1, h2, h3]

/-- Witness for C5: the CRITICAL mapping at a concretely built result. -/
theorem claim_C5_witness :
    nagios_output "server" (check "server" [⟨"a", some "DOWN", []⟩] ["a"] [] [] false) =
      (2, "CRITICAL: " ++
        (create_title "server" (check "server" [⟨"a", some "DOWN", []⟩] ["a"] [] [] false) ++
          os_linesep ++ String.intercalate os_linesep
            (check "server" [⟨"a", some "DOWN", []⟩] ["a"] [] [] false).messages)) :=
  (claim_C5 "server" (check "server" [⟨"a", some "DOWN", []⟩] ["a"] [] [] false)).2.2.1
    (by decide)
theorem add_result_not_found_true (r : Results) (t i : String) (s : Option String) :
    (r.add_result t i s true).not_found = r.not_found := by
  unfold Results.add_result
  repeat' split
  all_goals first | rfl | simp_all

theorem check_step_not_found (t : String) (acc : Results) (res : Resource) :
    (check_step t acc res).not_found = acc.not_found := by
  unfold check_step
  split
  · exact add_result_not_found_true acc t res.id _
  · exact add_result_not_found_true acc t res.id none

theorem fold_check_step_not_found (t : String) :
    ∀ (l : List Resource) (acc : Results),
      (l.foldl (check_step t) acc).not_found = acc.not_found := by
  intro l
  induction l with
  | nil => intro acc; rfl
  | cons x l ih =>
    intro acc
    rw [List.foldl_cons, ih, check_step_not_found]

theorem add_result_notfound_none_eq (r : Results) (t i : String) :
    r.add_result t i none false = { r with
      not_found := r.not_found ++ [i],
      exit_code := max NAGIOS_STATUS_CRITICAL r.exit_code,
      msgs := r.msgs ++
        [(NAGIOS_STATUS_CRITICAL, t ++ " '" ++ i ++ "' was not found")] } :=
  add_result_notfound_eq r t i none (by simp) (by simp)

theorem fold_notfound_step_not_found (t : String) (checked : List String) :
    ∀ (ids : List String) (acc : Results),
      (ids.foldl (check_notfound_step t checked) acc).not_found =
        acc.not_found ++ ids.filter (fun i => !(checked.contains i)) := by
  intro ids
  induction ids with
  | nil => intro acc; simp
  | cons i ids ih =>
    intro acc
    rw [List.foldl_cons, ih]
    unfold check_notfound_step
    cases hc : checked.contains i with
    | true =>
      have hc' : i ∈ checked := by simpa using hc
      simp [List.filter_cons, hc']
    | false =>
      have hc' : i ∉ checked := by simpa using hc
      rw [if_neg (by simpa using hc)]
      rw [add_result_notfound_none_eq]
      simp [List.filter_cons, hc', List.append_assoc]

theorem add_result_msgs_mono (r : Results) (t i : String) (s : Option String) (e : Bool)
    {p : Nat × String} (hp : p ∈ r.msgs) : p ∈ (r.add_result t i s e).msgs := by
  obtain ⟨q, _, hm, _⟩ := add_result_msgs r t i s e
  rw [hm]
  exact List.mem_append_left _ hp

theorem fold_notfound_step_msgs_mono (t : String) (checked : List String) :
    ∀ (ids : List String) (acc : Results) {p : Nat × String}, p ∈ acc.msgs →
      p ∈ (ids.foldl (check_notfound_step t checked) acc).msgs := by
  intro ids
  induction ids with
  | nil => intro acc p hp; exact hp
  | cons i ids ih =>
    intro acc p hp
    rw [List.foldl_cons]
    refine ih _ ?_
    unfold check_notfound_step
    split
    · exact hp
    · exact add_result_msgs_mono acc t i none false hp

theorem fold_notfound_step_msgs_mem (t : String) (checked : List String) :
    ∀ (ids : List String) (acc : Results) (i : String), i ∈ ids →
      checked.contains i = false →
      (2, t ++ " '" ++ i ++ "' was not found") ∈
        (ids.foldl (check_notfound_step t checked) acc).msgs := by
  intro ids
  induction ids with
  | nil => intro acc i hi; cases hi
  | cons j ids ih =>
    intro acc i hi hc
    rw [List.foldl_cons]
    rcases List.mem_cons.mp hi with h | h
    · subst h
      refine fold_notfound_step_msgs_mono t checked ids _ ?_
      unfold check_notfound_step
      rw [if_neg (by simpa using hc)]
      rw [add_result_notfound_none_eq]
      exact List.mem_append_right _ (by simp [NAGIOS_STATUS_CRITICAL])
    · exact ih _ i h hc

theorem check_inv (t : String) (resources : List Resource) (ids skip : List String)
    (select : List (String × String)) (ca : Bool) :
    ResultsInv (check t resources ids skip select ca) := by
  have hstep : ∀ (l : List Resource) (acc : Results), ResultsInv acc →
      ResultsInv (l.foldl (check_step t) acc) := by
    intro l
    induction l with
    | nil => intro acc h; exact h
    | cons x l ih =>
      intro acc h
      refine ih _ ?_
      unfold check_step
      split
      · exact add_result_inv _ _ _ _ h
      · exact add_result_inv _ _ _ _ h
  have hstep2 : ∀ (l : List String) (acc : Results), ResultsInv acc →
      ResultsInv (l.foldl (check_notfound_step t
        ((resource_filter resources ids skip ca select).map Resource.id)) acc) := by
    intro l
    induction l with
    | nil => intro acc h; exact h
    | cons x l ih =>
      intro acc h
      refine ih _ ?_
      unfold check_notfound_step
      split
      · exact h
      · exact add_result_inv _ _ _ _ h
  exact hstep2 ids _ (hstep _ _ init_inv)

/-- C4: in EXPLICIT_IDS mode every requested id that is not observed among
the filtered resources produces exactly one CRITICAL not-found entry
`<type> '<id>' was not found`, and any such id forces aggregate severity
CRITICAL (exit code 2). -/
theorem claim_C4 (type_ : String) (resources : List Resource) (ids skip : List String)
    (select : List (String × String)) (h : ids.Nodup) :
    (check type_ resources ids skip select false).not_found =
      ids.filter (fun i =>
        !(((resource_filter resources ids skip false select).map Resource.id).contains i)) ∧
    (∀ i ∈ ids,
      ((resource_filter resources ids skip false select).map Resource.id).contains i = false →
      ((check type_ resources ids skip select false).not_found).count i = 1 ∧
      (2, type_ ++ " '" ++ i ++ "' was not found") ∈
        (check type_ resources ids skip select false).msgs) ∧
    ((∃ i, i ∈ ids ∧
      ((resource_filter resources ids skip false select).map Resource.id).contains i = false) →
      (check type_ resources ids skip select false).exit_code = 2) := by
  have hchk : check type_ resources ids skip select false =
      ids.foldl (check_notfound_step type_
        ((resource_filter resources ids skip false select).map Resource.id))
        ((resource_filter resources ids skip false select).foldl (check_step type_)
          Results.init) := rfl
  have hnf : (check type_ resources ids skip select false).not_found =
      ids.filter (fun i =>
        !(((resource_filter resources ids skip false select).map Resource.id).contains i)) := by
    rw [hchk, fold_notfound_step_not_found, fold_check_step_not_found]
    rfl
  refine ⟨hnf, ?_, ?_⟩
  · intro i hi hc
    constructor
    · rw [hnf]
      refine List.count_eq_one_of_mem (h.filter _) ?_
      exact List.mem_filter.mpr ⟨hi, by simpa using hc⟩
    · rw [hchk]
      exact fold_notfound_step_msgs_mem type_ _ ids _ i hi hc
  · rintro ⟨i, hi, hc⟩
    have hmem : (2, type_ ++ " '" ++ i ++ "' was not found") ∈
        (check type_ resources ids skip select false).msgs := by
      rw [hchk]
      exact fold_notfound_step_msgs_mem type_ _ ids _ i hi hc
    obtain ⟨h1, h2⟩ := check_inv type_ resources ids skip select false
    have hle : sevFold (check type_ resources ids skip select false).msgs ≤ 2 :=
      foldl_max_le _ 0 h2 (by omega)
    have hge : (2 : Nat) ≤ sevFold (check type_ resources ids skip select false).msgs :=
      mem_le_foldl_max _ 0 _ hmem
    omega

/-- Witness for C4: requesting ids `{"a","b"}` when the cloud returns only
an ACTIVE resource `"a"` yields one OK entry for `"a"`, one CRITICAL
not-found entry for `"b"`, and exit code 2. -/
theorem claim_C4_witness :
    ((check "server" [⟨"a", some "ACTIVE", []⟩] ["a", "b"] [] [] false).not_found).count "b" = 1 ∧
    (2, "server 'b' was not found") ∈
      (check "server" [⟨"a", some "ACTIVE", []⟩] ["a", "b"] [] [] false).msgs ∧
    (check "server" [⟨"a", some "ACTIVE", []⟩] ["a", "b"] [] [] false).exit_code = 2 ∧
    (check "server" [⟨"a", some "ACTIVE", []⟩] ["a", "b"] [] [] false).ok = ["a"] ∧
    (0, "server 'a' is in ACTIVE status") ∈
      (check "server" [⟨"a", some "ACTIVE", []⟩] ["a", "b"] [] [] false).msgs := by
  obtain ⟨hcnt, hmem⟩ :=
    (claim_C4 "server" [⟨"a", some "ACTIVE", []⟩] ["a", "b"] [] [] (by decide)).2.1
      "b" (by decide) (by decide)
  refine ⟨hcnt, hmem, ?_, ?_, ?_⟩
  · exact (claim_C4 "server" [⟨"a", some "ACTIVE", []⟩] ["a", "b"] [] [] (by decide)).2.2
      ⟨"b", by decide, by decide⟩
  · decide
  · decide
theorem resource_filter_all_eq (resources : List Resource) (ids skip : List String)
    (select : List (String × String)) :
    resource_filter resources ids skip true select =
      resources.filter (fun r => !(skip.contains r.id)) := by
  apply List.filter_congr
  intro r _
  cases h : skip.contains r.id <;> simp [h]

theorem resource_filter_explicit_eq (resources : List Resource) (ids skip : List String)
    (select : List (String × String)) :
    resource_filter resources ids skip false select =
      resources.filter (fun r => ids.contains r.id) := by
  apply List.filter_congr
  intro r _
  cases h : ids.contains r.id <;> simp [h]

/-- An identifier was recorded in one of the four result buckets. -/
def inBuckets (r : Results) (x : String) : Prop :=
  x ∈ r.ok ∨ x ∈ r.warning ∨ x ∈ r.critical ∨ x ∈ r.not_found

theorem add_result_buckets (r : Results) (t i : String) (s : Option String) (e : Bool)
    (x : String) (hx : inBuckets (r.add_result t i s e) x) : inBuckets r x ∨ x = i := by
  unfold inBuckets at hx ⊢
  unfold Results.add_result at hx
  repeat' split at hx
  all_goals simp [List.mem_append] at hx
  all_goals tauto

theorem check_step_buckets (t : String) (acc : Results) (res : Resource) (x : String)
    (hx : inBuckets (check_step t acc res) x) : inBuckets acc x ∨ x = res.id := by
  unfold check_step at hx
  split at hx
  · exact add_result_buckets acc t res.id _ true x hx
  · exact add_result_buckets acc t res.id none true x hx

theorem fold_check_step_buckets (t : String) :
    ∀ (l : List Resource) (acc : Results) (x : String),
      inBuckets (l.foldl (check_step t) acc) x →
      inBuckets acc x ∨ x ∈ l.map Resource.id := by
  intro l
  induction l with
  | nil => intro acc x hx; exact Or.inl hx
  | cons r l ih =>
    intro acc x hx
    rw [List.foldl_cons] at hx
    rcases ih _ x hx with h | h
    · rcases check_step_buckets t acc r x h with h' | h'
      · exact Or.inl h'
      · exact Or.inr (by simp [h'])
    · exact Or.inr (by simp [h])

/-- C7: (a) in EXPLICIT_IDS mode the filter yields exactly the resources
whose identifier is in the requested set; (b) in ALL mode an identifier in
the skip set produces no result entry at all — it lands in none of the
`ok`/`warning`/`critical`/`not_found` buckets, even if the skipped
resource's status is DOWN. -/
theorem claim_C7 (type_ : String) (resources : List Resource) (ids skip : List String)
    (select select' : List (String × String)) (x : String) (hx : x ∈ skip) :
    resource_filter resources ids skip false select =
      resources.filter (fun r => ids.contains r.id) ∧
    (x ∉ (check type_ resources [] skip select' true).ok ∧
     x ∉ (check type_ resources [] skip select' true).warning ∧
     x ∉ (check type_ resources [] skip select' true).critical ∧
     x ∉ (check type_ resources [] skip select' true).not_found) := by
  refine ⟨resource_filter_explicit_eq resources ids skip select, ?_⟩
  have hchk : check type_ resources [] skip select' true =
      (resource_filter resources [] skip true select').foldl (check_step type_)
        Results.init := rfl
  have hnot : ¬ inBuckets (check type_ resources [] skip select' true) x := by
    intro hb
    rw [hchk] at hb
    rcases fold_check_step_buckets type_ _ Results.init x hb with h | h
    · simp [inBuckets, Results.init] at h
    · obtain ⟨r, hrF, hrid⟩ := List.mem_map.mp h
      rw [resource_filter_all_eq] at hrF
      have hpred := (List.mem_filter.mp hrF).2
      rw [hrid] at hpred
      simp at hpred
      exact hpred hx
  unfold inBuckets at hnot
  push_neg at hnot
  exact ⟨hnot.1, hnot.2.1, hnot.2.2.1, hnot.2.2.2⟩

/-- Witness for C7: `--all --skip-id x` on a DOWN resource `x` leaves every
bucket without `x`. -/
theorem claim_C7_witness :
    "x" ∉ (check "server" [⟨"x", some "DOWN", []⟩] [] ["x"] [] true).critical :=
  (claim_C7 "server" [⟨"x", some "DOWN", []⟩] [] ["x"] [] [] "x" (by decide)).2.2.2.1
theorem add_result_ok_mono (r : Results) (t i : String) (s : Option String) (e : Bool)
    {x : String} (hx : x ∈ r.ok) : x ∈ (r.add_result t i s e).ok := by
  unfold Results.add_result
  repeat' split
  all_goals first | exact hx | exact List.mem_append_left _ hx

theorem check_step_ok_mono (t : String) (acc : Results) (res : Resource)
    {x : String} (hx : x ∈ acc.ok) : x ∈ (check_step t acc res).ok := by
  unfold check_step
  split
  · exact add_result_ok_mono acc t res.id _ true hx
  · exact add_result_ok_mono acc t res.id none true hx

theorem fold_check_step_ok_mono (t : String) :
    ∀ (l : List Resource) (acc : Results) {x : String}, x ∈ acc.ok →
      x ∈ (l.foldl (check_step t) acc).ok := by
  intro l
  induction l with
  | nil => intro acc x hx; exact hx
  | cons r l ih =>
    intro acc x hx
    rw [List.foldl_cons]
    exact ih _ (check_step_ok_mono t acc r hx)

theorem fold_check_step_msgs_mono (t : String) :
    ∀ (l : List Resource) (acc : Results) {p : Nat × String}, p ∈ acc.msgs →
      p ∈ (l.foldl (check_step t) acc).msgs := by
  intro l
  induction l with
  | nil => intro acc p hp; exact hp
  | cons r l ih =>
    intro acc p hp
    rw [List.foldl_cons]
    refine ih _ ?_
    unfold check_step
    split
    · exact add_result_msgs_mono acc t r.id _ true hp
    · exact add_result_msgs_mono acc t r.id none true hp

theorem fold_check_step_mem_rex (t : String) (ht : RESOURCES_BY_EXISTENCE.contains t = true) :
    ∀ (l : List Resource) (acc : Results) (res : Resource), res ∈ l →
      (0, t ++ " '" ++ res.id ++ "' exists") ∈ (l.foldl (check_step t) acc).msgs ∧
      res.id ∈ (l.foldl (check_step t) acc).ok := by
  intro l
  induction l with
  | nil => intro acc res h; cases h
  | cons r l ih =>
    intro acc res h
    rw [List.foldl_cons]
    rcases List.mem_cons.mp h with h | h
    · subst h
      have hstep : check_step t acc res = { acc with
          ok := acc.ok ++ [res.id],
          exit_code := max NAGIOS_STATUS_OK acc.exit_code,
          msgs := acc.msgs ++ [(NAGIOS_STATUS_OK, t ++ " '" ++ res.id ++ "' exists")] } := by
        unfold check_step
        rw [if_neg (by simpa using ht)]
        exact add_result_exists_eq acc t res.id none rfl ht
      constructor
      · refine fold_check_step_msgs_mono t l _ ?_
        rw [hstep]
        exact List.mem_append_right _ (by simp [NAGIOS_STATUS_OK])
      · refine fold_check_step_ok_mono t l _ ?_
        rw [hstep]
        exact List.mem_append_right _ (by simp)
    · exact ih _ res h

theorem check_notfound_step_ok_mono (t : String) (checked : List String) (acc : Results)
    (i : String) {x : String} (hx : x ∈ acc.ok) :
    x ∈ (check_notfound_step t checked acc i).ok := by
  unfold check_notfound_step
  split
  · exact hx
  · exact add_result_ok_mono acc t i none false hx

theorem fold_notfound_step_ok_mono (t : String) (checked : List String) :
    ∀ (ids : List String) (acc : Results) {x : String}, x ∈ acc.ok →
      x ∈ (ids.foldl (check_notfound_step t checked) acc).ok := by
  intro ids
  induction ids with
  | nil => intro acc x hx; exact hx
  | cons i ids ih =>
    intro acc x hx
    rw [List.foldl_cons]
    exact ih _ (check_notfound_step_ok_mono t checked acc i hx)

theorem resource_filter_map_status (resources : List Resource) (ids skip : List String)
    (select : List (String × String)) (ca : Bool) (f : Resource → Option String) :
    resource_filter (resources.map fun q => ⟨q.id, f q, q.attrs⟩) ids skip ca select =
      (resource_filter resources ids skip ca select).map fun q => ⟨q.id, f q, q.attrs⟩ := by
  unfold resource_filter
  rw [List.filter_map]
  rfl

/-- C8: for an existence-only resource type, a resource requested by
explicit id and present in the enumeration produces an OK entry
`<type> '<id>' exists` with no status text, and the whole outcome of
`check` is unchanged when every resource's status attribute is replaced
arbitrarily — the status is never consulted. -/
theorem claim_C8 (type_ : String) (resources : List Resource) (ids skip : List String)
    (select : List (String × String)) (res : Resource)
    (ht : RESOURCES_BY_EXISTENCE.contains type_ = true)
    (hres : res ∈ resources) (hid : ids.contains res.id = true) :
    (0, type_ ++ " '" ++ res.id ++ "' exists") ∈
      (check type_ resources ids skip select false).msgs ∧
    res.id ∈ (check type_ resources ids skip select false).ok ∧
    (∀ f : Resource → Option String,
      check type_ (resources.map fun q => ⟨q.id, f q, q.attrs⟩) ids skip select false =
        check type_ resources ids skip select false) := by
  have hchk : check type_ resources ids skip select false =
      ids.foldl (check_notfound_step type_
        ((resource_filter resources ids skip false select).map Resource.id))
        ((resource_filter resources ids skip false select).foldl (check_step type_)
          Results.init) := rfl
  have hresF : res ∈ resource_filter resources ids skip false select := by
    rw [resource_filter_explicit_eq]
    exact List.mem_filter.mpr ⟨hres, hid⟩
  obtain ⟨hmsg, hok⟩ := fold_check_step_mem_rex type_ ht _ Results.init res hresF
  refine ⟨?_, ?_, ?_⟩
  · rw [hchk]
    exact fold_notfound_step_msgs_mono type_ _ ids _ hmsg
  · rw [hchk]
    exact fold_notfound_step_ok_mono type_ _ ids _ hok
  · intro f
    have hfun : (fun (acc : Results) (q : Resource) =>
        check_step type_ acc ⟨q.id, f q, q.attrs⟩) = check_step type_ := by
      funext acc q
      unfold check_step
      rw [if_neg (by simpa using ht), if_neg (by simpa using ht)]
    have hfil := resource_filter_map_status resources ids skip select false f
    show ids.foldl (check_notfound_step type_
        ((resource_filter (resources.map fun q => ⟨q.id, f q, q.attrs⟩)
          ids skip false select).map Resource.id))
        ((resource_filter (resources.map fun q => ⟨q.id, f q, q.attrs⟩)
          ids skip false select).foldl (check_step type_) Results.init) =
      check type_ resources ids skip select false
    rw [hfil, List.map_map, List.foldl_map, hfun, hchk]
    rfl

/-- Witness for C8: a subnet requested by explicit id whose record carries a
DOWN status still yields the OK "exists" entry. -/
theorem claim_C8_witness :
    (0, "subnet 's1' exists") ∈
      (check "subnet" [⟨"s1", some "DOWN", []⟩] ["s1"] [] [] false).msgs ∧
    "s1" ∈ (check "subnet" [⟨"s1", some "DOWN", []⟩] ["s1"] [] [] false).ok := by
  obtain ⟨h1, h2, _⟩ :=
    claim_C8 "subnet" [⟨"s1", some "DOWN", []⟩] ["s1"] [] [] ⟨"s1", some "DOWN", []⟩
      (by decide) (by decide) (by decide)
  exact ⟨h1, h2⟩

end CheckResources
